import Mathlib

/-!
Verification of the forum backend's identity-and-content core
(repository Mania124/forum), as a shallow embedding in Lean 4.

Go strings are modelled as rune sequences (`List Char`); byte lengths are
computed with an explicit UTF-8 length function.  In this representation
every string is valid UTF-8, so Go's `utf8.ValidString` check is
identically true and does not appear as a separate branch.
Machine integers are modelled as `Int`/`Nat` (no arithmetic in this code
comes near an overflow boundary).  Database tables are lists of rows and
each SQL statement is an explicit list transformation.
-/

/-- Go string contents, modelled as a list of runes. -/
abbrev Str := List Char

/-- The NUL character, written `"\x00"` in the Go source. -/
def nullChar : Char := Char.ofNat 0

/-- Apostrophe character (escaped by `html.EscapeString` as `&#39;`). -/
def aposChar : Char := Char.ofNat 39

/-- Double-quote character (escaped by `html.EscapeString` as `&#34;`). -/
def quotChar : Char := Char.ofNat 34

/-- Go `unicode.IsSpace`: the whitespace set used by `strings.TrimSpace`
(ASCII spaces, NEL, NBSP and the Unicode space separators). -/
def isGoSpace (c : Char) : Bool :=
  let n := c.toNat
  (9 ≤ n && n ≤ 13) || n == 32 || n == 133 || n == 160 || n == 0x1680 ||
    (0x2000 ≤ n && n ≤ 0x200A) || n == 0x2028 || n == 0x2029 ||
    n == 0x202F || n == 0x205F || n == 0x3000

/-- Go `strings.TrimSpace`: drop leading and trailing whitespace runes. -/
def trimSpace (s : Str) : Str :=
  ((s.dropWhile isGoSpace).reverse.dropWhile isGoSpace).reverse

/-- Number of bytes in the UTF-8 encoding of one rune. -/
def charUtf8Len (c : Char) : Nat :=
  if c.toNat < 0x80 then 1
  else if c.toNat < 0x800 then 2
  else if c.toNat < 0x10000 then 3
  else 4

/-- Go `len(s)` on a string: the byte length of its UTF-8 encoding. -/
def utf8Len (s : Str) : Nat := (s.map charUtf8Len).sum

/-- Go `html.EscapeString`, one rune at a time: escapes `&`, `'`, `<`,
`>` and `"` exactly as `html.escaper` does. -/
def escapeChar (c : Char) : Str :=
  if c == '&' then "&amp;".toList
  else if c == aposChar then "&#39;".toList
  else if c == '<' then "&lt;".toList
  else if c == '>' then "&gt;".toList
  else if c == quotChar then "&#34;".toList
  else [c]

/-- Go `html.EscapeString` on a whole string. -/
def escapeString (s : Str) : Str := (s.map escapeChar).flatten

/-- `utils.ValidateAndSanitizeString` (backend/utils, in post.go lines
440-468): reject NUL bytes, trim whitespace, reject empty input, reject
byte length above `maxLength`, then HTML-escape.  The `utf8.ValidString`
check of the source is identically true in the rune-sequence model. -/
def ValidateAndSanitizeString (input : Str) (maxLength : Nat)
    (fieldName : String) : Except String Str :=
  if input.contains nullChar then
    .error (fieldName ++ " contains invalid characters")
  else
    let t := trimSpace input
    if t.isEmpty then .error (fieldName ++ " cannot be empty")
    else if utf8Len t > maxLength then
      .error (fieldName ++ " exceeds maximum length")
    else .ok (escapeString t)

/-- `utils.ValidatePostContent`: validates title (≤ 200) and content
(≤ 10000), discarding the sanitized values. -/
def ValidatePostContent (title content : Str) : Except String Unit :=
  match ValidateAndSanitizeString title 200 "title" with
  | .error e => .error e
  | .ok _ =>
    match ValidateAndSanitizeString content 10000 "content" with
    | .error e => .error e
    | .ok _ => .ok ()

/-- Decimal digit run of Go `strconv.Atoi`: consume digits, fail on any
non-digit. -/
def digitsVal (l : List Char) (acc : Nat) : Option Nat :=
  match l with
  | [] => some acc
  | c :: cs =>
    if c.isDigit then digitsVal cs (acc * 10 + (c.toNat - 48)) else none

/-- Digit run that must be non-empty. -/
def digitsVal1 (l : List Char) : Option Nat :=
  match l with
  | [] => none
  | _ => digitsVal l 0

/-- The largest value `strconv.Atoi` can return (max int64). -/
def int64Max : Nat := 2 ^ 63 - 1

/-- Go `strconv.Atoi`: optional sign, then at least one digit and
nothing else; the empty string (a missing query parameter) fails, and a
value outside the signed 64-bit range [-2^63, 2^63-1] fails with
`ErrRange`. -/
def atoi (s : Str) : Option Int :=
  match s with
  | [] => none
  | c :: cs =>
    if c == '-' then
      (digitsVal1 cs).bind (fun n =>
        if n ≤ 2 ^ 63 then some (-(n : Int)) else none)
    else if c == '+' then
      (digitsVal1 cs).bind (fun n =>
        if n ≤ int64Max then some ((n : Int)) else none)
    else
      (digitsVal1 (c :: cs)).bind (fun n =>
        if n ≤ int64Max then some ((n : Int)) else none)

/-- `utils.GetPaginationParams` (post.go lines 423-436): `page` defaults
to 1 and `limit` defaults to 10 when the parameter is absent,
non-numeric or below 1; a parsed value ≥ 1 is returned unchanged.
The two arguments are the raw `page` and `limit` query values
(`""` when the parameter is missing, as `URL.Query().Get` returns). -/
def GetPaginationParams (pageStr limitStr : Str) : Int × Int :=
  let page := match atoi pageStr with
    | none => 1
    | some p => if p < 1 then 1 else p
  let limit := match atoi limitStr with
    | none => 10
    | some l => if l < 1 then 10 else l
  (page, limit)

example : ValidateAndSanitizeString "test".toList 10 "field" =
    .ok "test".toList := by rfl

example : ValidateAndSanitizeString "  test  ".toList 10 "field" =
    .ok "test".toList := by rfl

example : ValidateAndSanitizeString "<script>alert('xss')</script>".toList
    100 "field" =
    .ok "&lt;script&gt;alert(&#39;xss&#39;)&lt;/script&gt;".toList := by rfl

example :
    (ValidateAndSanitizeString ("test".toList ++ [nullChar]) 10
      "field").isOk = false := by decide

example : (ValidateAndSanitizeString "verylongstring".toList 5
    "field").isOk = false := by decide

example : GetPaginationParams "".toList "".toList = (1, 10) := by decide

example : GetPaginationParams "2".toList "20".toList = (2, 20) := by decide

example : GetPaginationParams "invalid".toList "5".toList = (1, 5) := by
  decide

example : GetPaginationParams "3".toList "invalid".toList = (3, 10) := by
  decide

example : GetPaginationParams "-1".toList "-5".toList = (1, 10) := by
  decide

example : GetPaginationParams "0".toList "0".toList = (1, 10) := by decide

example : GetPaginationParams [] "9223372036854775807".toList =
    (1, 9223372036854775807) := by decide

example : GetPaginationParams [] "9223372036854775808".toList =
    (1, 10) := by decide

/-! ## Data model

Rows of the SQLite tables used by the claims (tests' schemas in
backend/sqlite/database_test.go and the handlers-package test DB). -/

/-- A row of the `sessions` table (`id TEXT PRIMARY KEY`, `user_id TEXT`,
`created_at DATETIME`).  Timestamps are seconds. -/
structure Session where
  id : String
  userId : String
  createdAt : Nat
deriving DecidableEq, Repr

/-- A row of the `posts` table (the fields the claims touch). -/
structure Post where
  id : Nat
  userId : String
  title : Str
  content : Str
  createdAt : Nat
deriving DecidableEq, Repr

/-- A row of the `comments` table.  `parent = none` marks a top-level
comment; `parent = some cid` marks a reply to comment `cid`. -/
structure CommentRow where
  id : Nat
  postId : Nat
  userId : String
  content : Str
  parent : Option Nat
  createdAt : Nat
deriving DecidableEq, Repr

/-- A reaction value (the `type` column of the `likes` table). -/
inductive RType where
  | like
  | dislike
deriving DecidableEq, Repr

/-- A reaction target: a post or a comment (`post_id`/`comment_id`
columns of the `likes` table). -/
inductive Target where
  | post (id : Nat)
  | comment (id : Nat)
deriving DecidableEq, Repr

/-- A row of the `likes` table, keyed by (user, target). -/
structure ReactionRow where
  userId : String
  target : Target
  rtype : RType
deriving DecidableEq, Repr

/-- The database state visible to the embedded operations. -/
structure DB where
  sessions : List Session
  posts : List Post
  comments : List CommentRow
  likes : List ReactionRow
deriving DecidableEq, Repr

/-! ## Session store (sqlite layer)

`backend/sqlite/database.go` is not under src/: only its tests are.
The session lookup is therefore modelled from the spec. -/

/-- Session TTL: 24 hours, in seconds (`24 * time.Hour` in
`utils.validateSession`). -/
def sessionTTL : Nat := 24 * 60 * 60

/-- Modelled from the spec: `sqlite.GetUserIDFromSession` is not under
src/.  Per the spec, a session is valid iff `now - created_at ≤ TTL`
and an invalid or expired session is "treated as absent"; per the
repository's own test (`TestGetUserIDFromSession`, database_test.go
lines 746-755) an absent session yields the empty string with a nil
error, never a lookup error.  `.error` is reserved for storage
failures, which this model never produces. -/
def dbGetUserIDFromSession (db : DB) (now : Nat) (sessionID : String) :
    Except String String :=
  match db.sessions.find? (fun s => s.id == sessionID) with
  | none => .ok ""
  | some s => if now - s.createdAt > sessionTTL then .ok "" else .ok s.userId

/-- `utils.GetUserIDFromSession` (post.go lines 385-392): read the
`session_id` cookie (an absent cookie is an error) and resolve it
through the sqlite layer. -/
def GetUserIDFromSession (db : DB) (now : Nat) (cookie : Option String) :
    Except String String :=
  match cookie with
  | none => .error "http: named cookie not present"
  | some sid => dbGetUserIDFromSession db now sid

/-- The handlers' shared unauthenticated test: `err != nil ||
userID == ""` on the result of `utils.GetUserIDFromSession`. -/
def authFailed (r : Except String String) : Bool :=
  match r with
  | .error _ => true
  | .ok uid => uid == ""

/-- Modelled from the spec: `handlers.RequireAuth` is not under src/
(only its call in `CreatePost`).  Per the spec, `requireAuth` composes
cookie extraction with session validation and reports the user id with
an ok flag; `CreatePost` then rejects when `!ok || userID == ""`. -/
def RequireAuth (db : DB) (now : Nat) (cookie : Option String) :
    String × Bool :=
  match GetUserIDFromSession db now cookie with
  | .error _ => ("", false)
  | .ok uid => (uid, uid != "")

/-! ## Post storage (sqlite layer, modelled from the spec and tests) -/

/-- Modelled from the spec: `sqlite.GetPost` is not under src/.  Per its
test (`TestGetPost`), it returns the row by id and errors
(`sql.ErrNoRows`) for a missing post; modelled as `Option`. -/
def dbGetPost (db : DB) (postId : Nat) : Option Post :=
  db.posts.find? (fun p => p.id == postId)

/-- Next AUTOINCREMENT id for the `posts` table. -/
def newPostId (db : DB) : Nat :=
  (db.posts.map Post.id).foldr max 0 + 1

/-- Modelled from the spec: `sqlite.CreatePost` is not under src/.
Inserts a post row owned by `userId` with the given (already sanitized)
title and content; category and image plumbing is out of the claims'
scope. -/
def dbCreatePost (db : DB) (userId : String) (title content : Str)
    (now : Nat) : Post × DB :=
  let p : Post := ⟨newPostId db, userId, title, content, now⟩
  (p, { db with posts := db.posts ++ [p] })

/-- Modelled from the spec: `sqlite.UpdatePost` is not under src/.
Updates title and content of the post with the given id. -/
def dbUpdatePost (db : DB) (postId : Nat) (title content : Str) : DB :=
  { db with
    posts := db.posts.map (fun p =>
      if p.id == postId then { p with title := title, content := content }
      else p) }

/-- Comment ids belonging to a post (the post's whole comment tree). -/
def commentIdsOfPost (db : DB) (postId : Nat) : List Nat :=
  (db.comments.filter (fun c => c.postId == postId)).map CommentRow.id

/-- Modelled from the spec: `sqlite.DeletePost` is not under src/.  Per
the spec's ownership rules, deleting a post cascade-deletes its comment
tree and the reactions on the post and on its comments. -/
def dbDeletePost (db : DB) (postId : Nat) : DB :=
  let cids := commentIdsOfPost db postId
  { db with
    posts := db.posts.filter (fun p => !(p.id == postId)),
    comments := db.comments.filter (fun c => !(c.postId == postId)),
    likes := db.likes.filter (fun r =>
      match r.target with
      | .post pid => !(pid == postId)
      | .comment cid => !(cids.contains cid)) }

/-! ## Reaction ledger (sqlite layer, modelled from the spec) -/

/-- The reaction row key test: same user, same target. -/
def keyMatch (uid : String) (t : Target) (r : ReactionRow) : Bool :=
  r.userId == uid && r.target == t

/-- Current reaction of (user, target): the first matching row's value
(the toggle state machine's `current`). -/
def findReaction (rows : List ReactionRow) (uid : String) (t : Target) :
    Option RType :=
  (rows.find? (keyMatch uid t)).map ReactionRow.rtype

/-- Delete all rows for (user, target). -/
def removeReaction (rows : List ReactionRow) (uid : String) (t : Target) :
    List ReactionRow :=
  rows.filter (fun r => !(keyMatch uid t r))

/-- Update the value of the rows for (user, target). -/
def setReaction (rows : List ReactionRow) (uid : String) (t : Target)
    (a : RType) : List ReactionRow :=
  rows.map (fun r => if keyMatch uid t r then { r with rtype := a } else r)

/-- Modelled from the spec: `sqlite.ToggleLike` is not under src/ (only
its call in `TestGetLikedPosts`).  The spec's §4.3 transition table:
no row → insert the action's value; same value → delete the row;
opposite value → update the row in place. -/
def ToggleLike (rows : List ReactionRow) (uid : String) (t : Target)
    (a : RType) : List ReactionRow :=
  match findReaction rows uid t with
  | none => rows ++ [⟨uid, t, a⟩]
  | some v => if v == a then removeReaction rows uid t
              else setReaction rows uid t a

/-- A whole sequence of toggle operations, applied left to right. -/
def applyToggles (rows : List ReactionRow)
    (ops : List (String × Target × RType)) : List ReactionRow :=
  ops.foldl (fun acc op => ToggleLike acc op.1 op.2.1 op.2.2) rows

/-- Store invariant: at most one reaction row per (user, target) pair. -/
def oneRowPerKey (rows : List ReactionRow) : Prop :=
  ∀ uid t, rows.countP (keyMatch uid t) ≤ 1

/-! ## Comment thread assembly (sqlite layer, modelled from the spec) -/

/-- A top-level comment together with its (always present, possibly
empty) list of direct replies: the shape `sqlite.GetPostComments`
returns and the handler serializes. -/
structure TopComment where
  row : CommentRow
  replies : List CommentRow
deriving DecidableEq, Repr

/-- Creation-time order used by the `ORDER BY created_at ASC` clauses. -/
def byCreated (a b : CommentRow) : Prop := a.createdAt ≤ b.createdAt

instance : DecidableRel byCreated := fun a b =>
  inferInstanceAs (Decidable (a.createdAt ≤ b.createdAt))

/-- The direct replies of comment `cid`, in creation order. -/
def repliesOf (db : DB) (cid : Nat) : List CommentRow :=
  List.insertionSort byCreated
    (db.comments.filter (fun r => r.parent == some cid))

/-- The top-level comment rows of a post, in creation order. -/
def topLevelRows (db : DB) (postId : Nat) : List CommentRow :=
  List.insertionSort byCreated
    (db.comments.filter (fun c => c.postId == postId && c.parent == none))

/-- Modelled from the spec: `sqlite.GetPostComments` is not under src/.
Per §4.4, fetch the post's top-level comments in creation order, fetch
each one's direct replies in creation order, and attach the reply list
(possibly empty, never absent) to its parent.  Children of replies are
never fetched. -/
def dbGetPostComments (db : DB) (postId : Nat) : List TopComment :=
  (topLevelRows db postId).map (fun c => ⟨c, repliesOf db c.id⟩)

/-! ## HTTP handlers (backend/handlers/post.go) -/

/-- Creation-time descending order of the post feed
(`ORDER BY created_at DESC`). -/
def byCreatedDesc (a b : Post) : Prop := b.createdAt ≤ a.createdAt

instance : DecidableRel byCreatedDesc := fun a b =>
  inferInstanceAs (Decidable (b.createdAt ≤ a.createdAt))

/-- Modelled from the spec: `sqlite.GetPostsLikedByUser` is not under
src/.  The posts the user has an active `like` reaction on, newest
first, paginated with `offset = (page-1)*limit`. -/
def dbGetPostsLikedByUser (db : DB) (uid : String) (page limit : Int) :
    List Post :=
  let liked := db.posts.filter (fun p =>
    db.likes.any (fun r =>
      r.userId == uid && r.target == Target.post p.id && r.rtype == RType.like))
  let sorted := List.insertionSort byCreatedDesc liked
  ((sorted.drop (((page - 1) * limit).toNat)).take limit.toNat)

/-- A `POST /api/posts/create` request: multipart form with `title` and
`content` fields (`formOk = false` models a form that fails
`ParseMultipartForm`) and an optional `session_id` cookie. -/
structure CreateReq where
  method : String
  cookie : Option String
  formOk : Bool
  title : Str
  content : Str
deriving DecidableEq, Repr

/-- `handlers.CreatePost` (post.go lines 22-137): method check, form
parse, content validation and sanitization, then authentication, then
insertion.  Category resolution and image upload do not affect the
claims and are modelled as succeeding. -/
def CreatePost (db : DB) (now : Nat) (r : CreateReq) : Nat × DB :=
  if r.method != "POST" then (405, db)
  else if !r.formOk then (400, db)
  else
    match ValidatePostContent r.title r.content with
    | .error _ => (400, db)
    | .ok _ =>
      match ValidateAndSanitizeString r.title 200 "title" with
      | .error _ => (400, db)
      | .ok sanitizedTitle =>
        match ValidateAndSanitizeString r.content 10000 "content" with
        | .error _ => (400, db)
        | .ok sanitizedContent =>
          let auth := RequireAuth db now r.cookie
          if !auth.2 || auth.1 == "" then (401, db)
          else
            (201, (dbCreatePost db auth.1 sanitizedTitle
              sanitizedContent now).2)

/-- A `PUT /api/posts/update` request: JSON body `{id, title, content}`
(`none` models a body the JSON decoder rejects). -/
structure UpdateReq where
  method : String
  cookie : Option String
  body : Option (Nat × Str × Str)
deriving DecidableEq, Repr

/-- `handlers.UpdatePost` (post.go lines 212-251): method check, body
decode, authentication, post fetch (any fetch error, including a
missing post, yields 500), ownership check, then the update. -/
def UpdatePost (db : DB) (now : Nat) (r : UpdateReq) : Nat × DB :=
  if r.method != "PUT" then (405, db)
  else
    match r.body with
    | none => (400, db)
    | some (postId, title, content) =>
      if authFailed (GetUserIDFromSession db now r.cookie) then (401, db)
      else
        let userID := match GetUserIDFromSession db now r.cookie with
          | .ok uid => uid
          | .error _ => ""
        match dbGetPost db postId with
        | none => (500, db)
        | some existing =>
          if existing.userId != userID then (403, db)
          else (200, dbUpdatePost db postId title content)

/-- A `DELETE /api/posts/delete` request: JSON body `{post_id}`. -/
structure DeleteReq where
  method : String
  cookie : Option String
  body : Option Nat
deriving DecidableEq, Repr

/-- `handlers.DeletePost` (post.go lines 253-293): method check, body
decode, authentication, post fetch (missing post yields 500),
ownership check, then the cascading delete. -/
def DeletePost (db : DB) (now : Nat) (r : DeleteReq) : Nat × DB :=
  if r.method != "DELETE" then (405, db)
  else
    match r.body with
    | none => (400, db)
    | some postId =>
      if authFailed (GetUserIDFromSession db now r.cookie) then (401, db)
      else
        let userID := match GetUserIDFromSession db now r.cookie with
          | .ok uid => uid
          | .error _ => ""
        match dbGetPost db postId with
        | none => (500, db)
        | some existing =>
          if existing.userId != userID then (403, db)
          else (200, dbDeletePost db postId)

/-- A `GET /api/posts/liked` request with its pagination query values. -/
structure LikedReq where
  method : String
  cookie : Option String
  pageStr : Str
  limitStr : Str
deriving DecidableEq, Repr

/-- `handlers.GetLikedPosts` (post.go lines 173-209): method check,
authentication, pagination, then the liked-posts query. -/
def GetLikedPosts (db : DB) (now : Nat) (r : LikedReq) :
    Nat × List Post :=
  if r.method != "GET" then (405, [])
  else
    match GetUserIDFromSession db now r.cookie with
    | .error _ => (401, [])
    | .ok userID =>
      if userID == "" then (401, [])
      else
        let (page, limit) := GetPaginationParams r.pageStr r.limitStr
        (200, dbGetPostsLikedByUser db userID page limit)

/-- `handlers.GetPostComments` (post.go lines 295-322): method check,
`post_id` query parameter parse, then the thread query.  The argument
is the raw `post_id` query value (`""` when missing). -/
def GetPostComments (db : DB) (method : String) (postIdStr : Str) :
    Nat × List TopComment :=
  if method != "GET" then (405, [])
  else if postIdStr.isEmpty then (400, [])
  else
    match atoi postIdStr with
    | none => (400, [])
    | some pid => (200, dbGetPostComments db pid.toNat)

/-! ## Helper lemmas -/

/-- Trimming only removes characters: anything in the trimmed string was
in the original. -/
theorem mem_of_mem_trimSpace {a : Char} {s : Str} (h : a ∈ trimSpace s) :
    a ∈ s := by
  unfold trimSpace at h
  have h1 : a ∈ (s.dropWhile isGoSpace).reverse.dropWhile isGoSpace :=
    List.mem_reverse.mp h
  have h2 : a ∈ (s.dropWhile isGoSpace).reverse :=
    (List.dropWhile_sublist isGoSpace).subset h1
  exact (List.dropWhile_sublist isGoSpace).subset (List.mem_reverse.mp h2)

/-- A run of `k` zeros multiplies the accumulator by `10 ^ k`. -/
theorem digitsVal_replicate_zero (k acc : Nat) :
    digitsVal (List.replicate k '0') acc = some (acc * 10 ^ k) := by
  induction k generalizing acc with
  | zero => simp [digitsVal]
  | succ n ih =>
    rw [List.replicate_succ]
    simp only [digitsVal, show '0'.isDigit = true from rfl, if_true,
      show '0'.toNat - 48 = 0 from rfl, Nat.add_zero, ih]
    congr 1
    ring

/-- `atoi` of the decimal numeral `1` followed by `k` zeros is `10 ^ k`,
provided the value lies within the int64 parse range. -/
theorem atoi_one_zeros (k : Nat) (hk : 10 ^ k ≤ int64Max) :
    atoi ('1' :: List.replicate k '0') = some ((10 : Int) ^ k) := by
  have h1 : digitsVal ('1' :: List.replicate k '0') 0 = some (10 ^ k) := by
    simp only [digitsVal, show '1'.isDigit = true from rfl, if_true,
      show (0 * 10 + ('1'.toNat - 48)) = 1 from rfl, digitsVal_replicate_zero,
      one_mul]
  simp only [atoi, digitsVal1, show ('1' == '-') = false from rfl,
    show ('1' == '+') = false from rfl, Bool.false_eq_true, if_false, h1]
  simp [hk]

/-! ## Concrete fixtures used by witnesses and counterexamples -/

/-- A small database: two users (`u1`, `u2`), fresh sessions `s1`/`s2`
created at time 0, a post `1` owned by `u1` with one top-level comment
and one reply, and a like by `u2` on the post. -/
def exDB : DB :=
  { sessions := [⟨"s1", "u1", 0⟩, ⟨"s2", "u2", 0⟩],
    posts := [⟨1, "u1", "T".toList, "C".toList, 10⟩],
    comments := [⟨1, 1, "u2", "c1".toList, none, 20⟩,
                 ⟨2, 1, "u1", "r1".toList, some 1, 30⟩,
                 ⟨3, 1, "u2", "c2".toList, none, 40⟩],
    likes := [⟨"u2", Target.post 1, RType.like⟩] }

/-- A time at which the sessions of `exDB` are within the 24h TTL. -/
def freshNow : Nat := 1000

/-- A time at which the sessions of `exDB` are older than the 24h TTL. -/
def staleNow : Nat := 100000

/-! ## C10 -/

/-- C10: whenever `ValidateAndSanitizeString` succeeds, the returned
value is the input trimmed of surrounding whitespace and then
HTML-escaped; the trimmed pre-escape input is non-empty, contains no
NUL, and has byte length at most `maxLength` (the bound is checked
before escaping, so no bound is imposed on the escaped form); and every
post stored by `CreatePost` carries exactly the sanitized title and
content.  (UTF-8 validity of the pre-escape input is inherent in the
rune-sequence model of Go strings.) -/
theorem c10_sanitization_sound :
    (∀ (input : Str) (maxLength : Nat) (fieldName : String) (s : Str),
        ValidateAndSanitizeString input maxLength fieldName = .ok s →
        s = escapeString (trimSpace input) ∧
        trimSpace input ≠ [] ∧
        nullChar ∉ trimSpace input ∧
        utf8Len (trimSpace input) ≤ maxLength) ∧
    (∀ (db : DB) (now : Nat) (r : CreateReq) (db' : DB),
        CreatePost db now r = (201, db') →
        ∃ t c, ValidateAndSanitizeString r.title 200 "title" = .ok t ∧
          ValidateAndSanitizeString r.content 10000 "content" = .ok c ∧
          db'.posts = db.posts ++
            [⟨newPostId db, (RequireAuth db now r.cookie).1, t, c, now⟩]) := by
  constructor
  · intro input maxLength fieldName s h
    by_cases hnull : nullChar ∈ input
    · simp [ValidateAndSanitizeString, hnull] at h
    · by_cases hemp : trimSpace input = []
      · simp [ValidateAndSanitizeString, hnull, hemp] at h
      · by_cases hlen : maxLength < utf8Len (trimSpace input)
        · simp [ValidateAndSanitizeString, hnull, hemp, hlen] at h
        · simp [ValidateAndSanitizeString, hnull, hemp, hlen] at h
          refine ⟨h.symm, hemp, ?_, by omega⟩
          intro hmem
          exact hnull (mem_of_mem_trimSpace hmem)
  · intro db now r db' h
    unfold CreatePost at h
    split at h
    · simp at h
    · split at h
      · simp at h
      · split at h
        · simp at h
        · split at h
          · simp at h
          · rename_i sanitizedTitle hTitle
            split at h
            · simp at h
            · rename_i sanitizedContent hContent
              refine ⟨sanitizedTitle, sanitizedContent, hTitle, hContent, ?_⟩
              dsimp only at h
              split at h
              · simp at h
              · simp only [Prod.mk.injEq] at h
                rw [← h.2]
                rfl

/-- Witness for C10 at concrete inputs: sanitizing `"  a<b  "` under
bound 10, and creating a post in `exDB` as `u1`. -/
theorem c10_sanitization_sound_witness :
    ("a&lt;b".toList = escapeString (trimSpace "  a<b  ".toList) ∧
      trimSpace "  a<b  ".toList ≠ [] ∧
      nullChar ∉ trimSpace "  a<b  ".toList ∧
      utf8Len (trimSpace "  a<b  ".toList) ≤ 10) ∧
    (∃ t c, ValidateAndSanitizeString "Hi".toList 200 "title" = .ok t ∧
      ValidateAndSanitizeString "There".toList 10000 "content" = .ok c ∧
      (CreatePost exDB freshNow
          ⟨"POST", some "s1", true, "Hi".toList, "There".toList⟩).2.posts =
        exDB.posts ++ [⟨newPostId exDB,
          (RequireAuth exDB freshNow (some "s1")).1, t, c, freshNow⟩]) :=
  ⟨c10_sanitization_sound.1 "  a<b  ".toList 10 "f" "a&lt;b".toList rfl,
   c10_sanitization_sound.2 exDB freshNow
     ⟨"POST", some "s1", true, "Hi".toList, "There".toList⟩
     (CreatePost exDB freshNow
       ⟨"POST", some "s1", true, "Hi".toList, "There".toList⟩).2 rfl⟩

/-! ## C6 -/

/-- C6 counterexample: `GetPaginationParams` applies no configured
server maximum to the limit.  At the concrete request `limit=1000000`
the effective limit is 1000000, and every candidate maximum below
`10^18` — an in-range decimal that `strconv.Atoi` parses without
`ErrRange` — is exceeded by some request.  (2^63-1 is the parsing
range of the integer type, not a configured maximum; larger numerals
fail parsing and fall back to the default.) -/
theorem c6_counterexample :
    GetPaginationParams [] "1000000".toList = (1, 1000000) ∧
    ∀ M : Nat, M < 10 ^ 18 → ∃ limitStr : Str,
      (M : Int) < (GetPaginationParams [] limitStr).2 := by
  refine ⟨by decide, ?_⟩
  intro M hM
  refine ⟨'1' :: List.replicate 18 '0', ?_⟩
  have h := atoi_one_zeros 18 (by norm_num [int64Max])
  have hlim : (GetPaginationParams [] ('1' :: List.replicate 18 '0')).2 =
      10 ^ 18 := by
    unfold GetPaginationParams
    rw [h]
    dsimp only
    rw [if_neg (by norm_num)]
  rw [hlim]
  exact_mod_cast hM

/-- C6 as amended: `page` defaults to 1 and `limit` defaults to 10 when
the respective parameter fails to parse (missing, non-numeric, or out
of the signed 64-bit range) or is below 1, and any parsed value ≥ 1 is
returned unchanged — no application-level maximum is applied to the
limit. -/
theorem c6_pagination_defaults (pageStr limitStr : Str) :
    (atoi pageStr = none → (GetPaginationParams pageStr limitStr).1 = 1) ∧
    (∀ p, atoi pageStr = some p → p < 1 →
      (GetPaginationParams pageStr limitStr).1 = 1) ∧
    (∀ p, atoi pageStr = some p → 1 ≤ p →
      (GetPaginationParams pageStr limitStr).1 = p) ∧
    (atoi limitStr = none → (GetPaginationParams pageStr limitStr).2 = 10) ∧
    (∀ l, atoi limitStr = some l → l < 1 →
      (GetPaginationParams pageStr limitStr).2 = 10) ∧
    (∀ l, atoi limitStr = some l → 1 ≤ l →
      (GetPaginationParams pageStr limitStr).2 = l) := by
  refine ⟨?_, ?_, ?_, ?_, ?_, ?_⟩
  · intro h
    simp [GetPaginationParams, h]
  · intro p hp hlt
    simp [GetPaginationParams, hp, hlt]
  · intro p hp hle
    simp only [GetPaginationParams, hp]
    rw [if_neg (by omega)]
  · intro h
    simp [GetPaginationParams, h]
  · intro l hl hlt
    simp [GetPaginationParams, hl, hlt]
  · intro l hl hle
    simp only [GetPaginationParams, hl]
    rw [if_neg (by omega)]

/-- Witness for C6 at the concrete request `page=0&limit=1000000`. -/
theorem c6_pagination_defaults_witness :
    (GetPaginationParams "0".toList "1000000".toList).1 = 1 ∧
    (GetPaginationParams "0".toList "1000000".toList).2 = 1000000 :=
  ⟨(c6_pagination_defaults "0".toList "1000000".toList).2.1 0 rfl
      (by decide),
   (c6_pagination_defaults "0".toList "1000000".toList).2.2.2.2.2 1000000
      rfl (by decide)⟩

/-! ## C1 helper lemmas -/

/-- The row inserted for (user, target) matches its own key. -/
theorem keyMatch_self (uid : String) (t : Target) (a : RType) :
    keyMatch uid t ⟨uid, t, a⟩ = true := by
  simp [keyMatch]

/-- Updating a row's value does not change which key it matches. -/
theorem keyMatch_setReaction (uid' : String) (t' : Target) (uid : String)
    (t : Target) (a : RType) (r : ReactionRow) :
    keyMatch uid' t' (if keyMatch uid t r then { r with rtype := a } else r) =
      keyMatch uid' t' r := by
  by_cases h : keyMatch uid t r = true
  · rw [if_pos h]
    rfl
  · rw [if_neg h]

/-- If no row matches a key, that key's row count is zero. -/
theorem countP_eq_zero_of_find?_none {rows : List ReactionRow}
    {uid : String} {t : Target}
    (h : rows.find? (keyMatch uid t) = none) :
    rows.countP (keyMatch uid t) = 0 :=
  List.countP_eq_zero.mpr (List.find?_eq_none.mp h)

/-- Toggling preserves the one-row-per-key invariant. -/
theorem oneRowPerKey_ToggleLike {rows : List ReactionRow}
    (h : oneRowPerKey rows) (uid : String) (t : Target) (a : RType) :
    oneRowPerKey (ToggleLike rows uid t a) := by
  intro uid' t'
  unfold ToggleLike
  cases hfind : findReaction rows uid t with
  | none =>
    rw [List.countP_append]
    have hnone : rows.find? (keyMatch uid t) = none := by
      unfold findReaction at hfind
      exact Option.map_eq_none.mp hfind
    by_cases hk : uid' = uid ∧ t' = t
    · obtain ⟨h1, h2⟩ := hk
      subst h1; subst h2
      rw [countP_eq_zero_of_find?_none hnone]
      simp [List.countP_cons, keyMatch_self]
    · have : keyMatch uid' t' ⟨uid, t, a⟩ = false := by
        simp only [keyMatch, Bool.and_eq_true, beq_iff_eq]
        by_cases h1 : uid = uid'
        · by_cases h2 : t = t'
          · exact absurd ⟨h1.symm, h2.symm⟩ hk
          · simp [h2]
        · simp [h1]
      have hz : List.countP (keyMatch uid' t') [(⟨uid, t, a⟩ : ReactionRow)]
          = 0 := by
        simp [List.countP_cons, this]
      rw [hz]
      exact Nat.le_trans (Nat.le_of_eq (Nat.add_zero _)) (h uid' t')
  | some v =>
    dsimp only
    by_cases hva : (v == a) = true
    · rw [if_pos hva]
      unfold removeReaction
      rw [List.countP_filter]
      exact Nat.le_trans
        (List.countP_mono_left (fun r _ hb => by
          simp only [Bool.and_eq_true] at hb
          exact hb.1))
        (h uid' t')
    · rw [if_neg hva]
      unfold setReaction
      rw [List.countP_map]
      have hcomp : (keyMatch uid' t' ∘ fun r =>
          if keyMatch uid t r then { r with rtype := a } else r) =
          keyMatch uid' t' := by
        funext r
        exact keyMatch_setReaction uid' t' uid t a r
      rw [hcomp]
      exact h uid' t'

/-- After deleting a key's rows, the key has no reaction. -/
theorem findReaction_removeReaction (rows : List ReactionRow)
    (uid : String) (t : Target) :
    findReaction (removeReaction rows uid t) uid t = none := by
  unfold findReaction removeReaction
  rw [List.find?_eq_none.mpr]
  · rfl
  · intro x hx hk
    have := (List.mem_filter.mp hx).2
    rw [hk] at this
    simp at this

/-- Inserting a row for a key with no reaction makes that row current. -/
theorem findReaction_insert (rows : List ReactionRow) (uid : String)
    (t : Target) (a : RType) (h : findReaction rows uid t = none) :
    findReaction (rows ++ [⟨uid, t, a⟩]) uid t = some a := by
  unfold findReaction at h ⊢
  have hnone : rows.find? (keyMatch uid t) = none := Option.map_eq_none.mp h
  rw [List.find?_append, hnone]
  simp [List.find?, keyMatch_self]

/-- Updating a key that has a reaction row sets its current value. -/
theorem findReaction_setReaction (rows : List ReactionRow) (uid : String)
    (t : Target) (a v : RType) (h : findReaction rows uid t = some v) :
    findReaction (setReaction rows uid t a) uid t = some a := by
  induction rows with
  | nil => simp [findReaction, List.find?] at h
  | cons r rs ih =>
    by_cases hk : keyMatch uid t r = true
    · unfold setReaction
      rw [List.map_cons]
      unfold findReaction
      rw [List.find?_cons_of_pos]
      · rw [if_pos hk]
        rfl
      · rw [keyMatch_setReaction uid t uid t a r]
        exact hk
    · have hfr : findReaction rs uid t = some v := by
        unfold findReaction at h ⊢
        rwa [List.find?_cons_of_neg _ (by simp [hk])] at h
      have := ih hfr
      unfold setReaction at this ⊢
      rw [List.map_cons]
      unfold findReaction at this ⊢
      rw [List.find?_cons_of_neg]
      · exact this
      · rw [keyMatch_setReaction uid t uid t a r]
        simp [hk]

/-! ## C1 -/

/-- C1 counterexample: starting from the empty store, the sequence
like, like, like by one user on one post leaves the ledger at `liked`,
so applying the same action twice in a row (after the one-toggle
sequence `like`) does **not** return the state to `none`. -/
theorem c1_counterexample :
    findReaction
      (ToggleLike
        (ToggleLike
          (ToggleLike [] "u1" (Target.post 1) RType.like)
          "u1" (Target.post 1) RType.like)
        "u1" (Target.post 1) RType.like)
      "u1" (Target.post 1) = some RType.like := by decide

/-- C1 as amended: for every toggle sequence the store keeps at most
one reaction row per (user, target) pair, and applying the same action
twice in a row returns the pair's ledger state to `none` whenever the
pair's current state is not already that action's value (in particular
from the no-reaction state). -/
theorem c1_toggle_and_row_uniqueness :
    (∀ (rows : List ReactionRow) (ops : List (String × Target × RType)),
        oneRowPerKey rows → oneRowPerKey (applyToggles rows ops)) ∧
    (∀ (rows : List ReactionRow) (uid : String) (t : Target) (a : RType),
        findReaction rows uid t ≠ some a →
        findReaction (ToggleLike (ToggleLike rows uid t a) uid t a) uid t
          = none) := by
  constructor
  · intro rows ops h
    induction ops generalizing rows with
    | nil => exact h
    | cons op ops ih =>
      exact ih (ToggleLike rows op.1 op.2.1 op.2.2)
        (oneRowPerKey_ToggleLike h op.1 op.2.1 op.2.2)
  · intro rows uid t a hne
    cases hfind : findReaction rows uid t with
    | none =>
      have h1 : ToggleLike rows uid t a = rows ++ [⟨uid, t, a⟩] := by
        unfold ToggleLike
        rw [hfind]
      have h2 : findReaction (rows ++ [⟨uid, t, a⟩]) uid t = some a :=
        findReaction_insert rows uid t a hfind
      rw [h1]
      unfold ToggleLike
      rw [h2]
      dsimp only
      rw [if_pos (by simp)]
      exact findReaction_removeReaction _ uid t
    | some v =>
      have hv : (v == a) = false := by
        rw [hfind] at hne
        simpa using hne
      have h1 : ToggleLike rows uid t a = setReaction rows uid t a := by
        unfold ToggleLike
        rw [hfind]
        simp [hv]
      have h2 : findReaction (setReaction rows uid t a) uid t = some a :=
        findReaction_setReaction rows uid t a v hfind
      rw [h1]
      unfold ToggleLike
      rw [h2]
      dsimp only
      rw [if_pos (by simp)]
      exact findReaction_removeReaction _ uid t

/-- Witness for C1 at concrete inputs: a one-toggle sequence from the
empty store keeps the invariant, and the double-like by `u1` (who has
no reaction yet) on post 1 of `exDB` ends at `none`. -/
theorem c1_toggle_and_row_uniqueness_witness :
    oneRowPerKey (applyToggles [] [("u2", Target.post 1, RType.like)]) ∧
    findReaction
      (ToggleLike (ToggleLike exDB.likes "u1" (Target.post 1) RType.like)
        "u1" (Target.post 1) RType.like) "u1" (Target.post 1) = none :=
  ⟨c1_toggle_and_row_uniqueness.1 [] [("u2", Target.post 1, RType.like)]
     (by intro uid t; simp),
   c1_toggle_and_row_uniqueness.2 exDB.likes "u1" (Target.post 1)
     RType.like (by decide)⟩

/-! ## C5 -/

/-- C5: for a post with N top-level comments where comment i has R_i
direct replies, the assembled thread has exactly N entries, the reply
lists' lengths sum to Σ R_i, and every entry carries its (possibly
empty, never absent) reply list — an entry whose comment has no reply
rows carries the empty list. -/
theorem c5_thread_shape (db : DB) (postId : Nat) :
    (dbGetPostComments db postId).length =
      (db.comments.filter
        (fun c => c.postId == postId && c.parent == none)).length ∧
    ((dbGetPostComments db postId).map
        (fun e => e.replies.length)).sum =
      ((db.comments.filter
          (fun c => c.postId == postId && c.parent == none)).map
        (fun c => (db.comments.filter
          (fun r => r.parent == some c.id)).length)).sum ∧
    (∀ e ∈ dbGetPostComments db postId,
      e.replies = repliesOf db e.row.id ∧
      (db.comments.filter (fun r => r.parent == some e.row.id) = [] →
        e.replies = [])) := by
  refine ⟨?_, ?_, ?_⟩
  · unfold dbGetPostComments topLevelRows
    rw [List.length_map, List.length_insertionSort]
  · unfold dbGetPostComments
    rw [List.map_map]
    have hmap : (fun e => (TopComment.replies e).length) ∘
        (fun c => (⟨c, repliesOf db c.id⟩ : TopComment)) =
        fun c => (db.comments.filter
          (fun r => r.parent == some c.id)).length := by
      funext c
      unfold repliesOf
      exact List.length_insertionSort _ _
    rw [hmap]
    unfold topLevelRows
    exact ((List.perm_insertionSort byCreated _).map _).sum_eq
  · intro e he
    unfold dbGetPostComments at he
    obtain ⟨c, _, hc⟩ := List.mem_map.mp he
    constructor
    · rw [← hc]
    · intro hnil
      rw [← hc]
      show repliesOf db c.id = []
      rw [← hc] at hnil
      unfold repliesOf
      rw [show (⟨c, repliesOf db c.id⟩ : TopComment).row = c from rfl] at hnil
      rw [hnil]
      rfl

/-- Witness for C5 on the concrete store `exDB`: post 1 has two
top-level comments (ids 1 and 3); comment 1 has one reply and comment 3
has none, so its entry carries the empty reply list. -/
theorem c5_thread_shape_witness :
    (dbGetPostComments exDB 1).length =
      (exDB.comments.filter
        (fun c => c.postId == 1 && c.parent == none)).length ∧
    ((dbGetPostComments exDB 1).map (fun e => e.replies.length)).sum =
      ((exDB.comments.filter
          (fun c => c.postId == 1 && c.parent == none)).map
        (fun c => (exDB.comments.filter
          (fun r => r.parent == some c.id)).length)).sum ∧
    (⟨⟨3, 1, "u2", "c2".toList, none, 40⟩, []⟩ : TopComment).replies =
      repliesOf exDB 3 ∧
    (⟨⟨3, 1, "u2", "c2".toList, none, 40⟩, []⟩ : TopComment).replies =
      ([] : List CommentRow) :=
  ⟨(c5_thread_shape exDB 1).1,
   (c5_thread_shape exDB 1).2.1,
   ((c5_thread_shape exDB 1).2.2
      ⟨⟨3, 1, "u2", "c2".toList, none, 40⟩, []⟩ (by decide)).1,
   ((c5_thread_shape exDB 1).2.2
      ⟨⟨3, 1, "u2", "c2".toList, none, 40⟩, []⟩ (by decide)).2
      (by decide)⟩

/-! ## Session lemmas -/

/-- Well-formedness of the `sessions` table: `id` is the primary key. -/
def sessionIdsNodup (db : DB) : Prop :=
  (db.sessions.map Session.id).Nodup

/-- With unique ids, looking up a stored session's id in a list of
session rows finds that row. -/
theorem find?_sessionList_eq {l : List Session} {s : Session}
    (hmem : s ∈ l) (hnodup : (l.map Session.id).Nodup) :
    l.find? (fun x => x.id == s.id) = some s := by
  induction l with
  | nil => simp at hmem
  | cons x xs ih =>
    rw [List.map_cons, List.nodup_cons] at hnodup
    by_cases hx : (x.id == s.id) = true
    · rw [@List.find?_cons_of_pos _ (fun y => y.id == s.id) x xs hx]
      cases List.mem_cons.mp hmem with
      | inl h => rw [h]
      | inr h =>
        exfalso
        apply hnodup.1
        rw [beq_iff_eq] at hx
        rw [hx]
        exact List.mem_map_of_mem Session.id h
    · rw [@List.find?_cons_of_neg _ (fun y => y.id == s.id) x xs hx]
      refine ih ?_ hnodup.2
      cases List.mem_cons.mp hmem with
      | inl h =>
        exfalso
        rw [h] at hx
        simp at hx
      | inr h => exact h

/-- With unique ids, looking up a stored session's id finds that row. -/
theorem find?_session_eq {db : DB} {s : Session} (hmem : s ∈ db.sessions)
    (hnodup : sessionIdsNodup db) :
    db.sessions.find? (fun x => x.id == s.id) = some s :=
  find?_sessionList_eq hmem hnodup

/-- An id with no session row resolves to the empty user id (no error). -/
theorem dbGetUserID_unknown (db : DB) (now : Nat) (sid : String)
    (h : ∀ s ∈ db.sessions, s.id ≠ sid) :
    dbGetUserIDFromSession db now sid = .ok "" := by
  unfold dbGetUserIDFromSession
  rw [List.find?_eq_none.mpr]
  intro x hx
  simp only [beq_iff_eq]
  exact h x hx

/-- A stored session older than the TTL resolves to the empty user id. -/
theorem dbGetUserID_expired {db : DB} {s : Session} (now : Nat)
    (hmem : s ∈ db.sessions) (hnodup : sessionIdsNodup db)
    (hexp : now - s.createdAt > sessionTTL) :
    dbGetUserIDFromSession db now s.id = .ok "" := by
  unfold dbGetUserIDFromSession
  rw [find?_session_eq hmem hnodup]
  dsimp only
  rw [if_pos hexp]

/-- A stored session within the TTL resolves to its owning user id. -/
theorem dbGetUserID_fresh {db : DB} {s : Session} (now : Nat)
    (hmem : s ∈ db.sessions) (hnodup : sessionIdsNodup db)
    (hfresh : now - s.createdAt ≤ sessionTTL) :
    dbGetUserIDFromSession db now s.id = .ok s.userId := by
  unfold dbGetUserIDFromSession
  rw [find?_session_eq hmem hnodup]
  dsimp only
  rw [if_neg (by omega)]

/-! ## C2 -/

/-- C2: session validation resolves a never-issued id to the empty user
id (treated as unauthenticated), resolves a stored session older than
the 24h TTL the same way, and for a stored session of age at most the
TTL reports the owning user id; the handlers' authentication test
accepts exactly the non-empty results. -/
theorem c2_session_validation (db : DB) (now : Nat) :
    (∀ sid : String, (∀ s ∈ db.sessions, s.id ≠ sid) →
        dbGetUserIDFromSession db now sid = .ok "") ∧
    (∀ s ∈ db.sessions, sessionIdsNodup db →
        now - s.createdAt > sessionTTL →
        dbGetUserIDFromSession db now s.id = .ok "") ∧
    (∀ s ∈ db.sessions, sessionIdsNodup db →
        now - s.createdAt ≤ sessionTTL →
        dbGetUserIDFromSession db now s.id = .ok s.userId) ∧
    (∀ uid : String, authFailed (.ok uid) = (uid == "")) := by
  refine ⟨fun sid h => dbGetUserID_unknown db now sid h,
    fun s hmem hnodup hexp => dbGetUserID_expired now hmem hnodup hexp,
    fun s hmem hnodup hfresh => dbGetUserID_fresh now hmem hnodup hfresh,
    fun uid => rfl⟩

/-- Witness for C2 on `exDB`: an unknown id, the session `s1` seen past
its TTL, and the same session seen fresh. -/
theorem c2_session_validation_witness :
    dbGetUserIDFromSession exDB freshNow "nope" = .ok "" ∧
    dbGetUserIDFromSession exDB staleNow "s1" = .ok "" ∧
    dbGetUserIDFromSession exDB freshNow "s1" = .ok "u1" ∧
    authFailed (.ok "u1") = ("u1" == "") :=
  ⟨(c2_session_validation exDB freshNow).1 "nope" (by decide),
   (c2_session_validation exDB staleNow).2.1 ⟨"s1", "u1", 0⟩ (by decide)
     (by unfold sessionIdsNodup; decide) (by decide),
   (c2_session_validation exDB freshNow).2.2.1 ⟨"s1", "u1", 0⟩ (by decide)
     (by unfold sessionIdsNodup; decide) (by decide),
   (c2_session_validation exDB freshNow).2.2.2 "u1"⟩

/-! ## Handler authentication lemmas -/

/-- The no-cookie request always fails the authentication test. -/
theorem authFailed_noCookie (db : DB) (now : Nat) :
    authFailed (GetUserIDFromSession db now none) = true := rfl

/-- `RequireAuth` rejects exactly when the handlers' shared test does. -/
theorem requireAuth_failed {db : DB} {now : Nat} {c : Option String}
    (h : authFailed (GetUserIDFromSession db now c) = true) :
    (!(RequireAuth db now c).2 || (RequireAuth db now c).1 == "") = true := by
  unfold RequireAuth
  cases hg : GetUserIDFromSession db now c with
  | error e => simp
  | ok uid =>
    rw [hg] at h
    simp only [authFailed] at h
    simp [h]

/-- `UpdatePost` does not depend on which failing credential it saw. -/
theorem UpdatePost_cookie_eq (db : DB) (now : Nat) (r : UpdateReq)
    (c1 c2 : Option String)
    (h1 : authFailed (GetUserIDFromSession db now c1) = true)
    (h2 : authFailed (GetUserIDFromSession db now c2) = true) :
    UpdatePost db now { r with cookie := c1 } =
      UpdatePost db now { r with cookie := c2 } := by
  unfold UpdatePost
  by_cases hm : (r.method != "PUT") = true
  · simp [hm]
  · simp only [hm, Bool.false_eq_true, if_false]
    cases hb : r.body with
    | none => rfl
    | some b => simp [h1, h2]

/-- An unauthenticated `UpdatePost` with a well-formed body is 401. -/
theorem UpdatePost_401 (db : DB) (now : Nat) (r : UpdateReq)
    (h : authFailed (GetUserIDFromSession db now r.cookie) = true)
    (hm : r.method = "PUT") (hb : r.body ≠ none) :
    (UpdatePost db now r).1 = 401 := by
  unfold UpdatePost
  cases hbb : r.body with
  | none => exact absurd hbb hb
  | some b => simp [hm, hbb, h]

/-- `DeletePost` does not depend on which failing credential it saw. -/
theorem DeletePost_cookie_eq (db : DB) (now : Nat) (r : DeleteReq)
    (c1 c2 : Option String)
    (h1 : authFailed (GetUserIDFromSession db now c1) = true)
    (h2 : authFailed (GetUserIDFromSession db now c2) = true) :
    DeletePost db now { r with cookie := c1 } =
      DeletePost db now { r with cookie := c2 } := by
  unfold DeletePost
  by_cases hm : (r.method != "DELETE") = true
  · simp [hm]
  · simp only [hm, Bool.false_eq_true, if_false]
    cases hb : r.body with
    | none => rfl
    | some b => simp [h1, h2]

/-- An unauthenticated `DeletePost` with a well-formed body is 401. -/
theorem DeletePost_401 (db : DB) (now : Nat) (r : DeleteReq)
    (h : authFailed (GetUserIDFromSession db now r.cookie) = true)
    (hm : r.method = "DELETE") (hb : r.body ≠ none) :
    (DeletePost db now r).1 = 401 := by
  unfold DeletePost
  cases hbb : r.body with
  | none => exact absurd hbb hb
  | some b => simp [hm, hbb, h]

/-- `GetLikedPosts` does not depend on which failing credential it saw. -/
theorem GetLikedPosts_cookie_eq (db : DB) (now : Nat) (r : LikedReq)
    (c1 c2 : Option String)
    (h1 : authFailed (GetUserIDFromSession db now c1) = true)
    (h2 : authFailed (GetUserIDFromSession db now c2) = true) :
    GetLikedPosts db now { r with cookie := c1 } =
      GetLikedPosts db now { r with cookie := c2 } := by
  unfold GetLikedPosts
  by_cases hm : (r.method != "GET") = true
  · simp [hm]
  · simp only [hm, Bool.false_eq_true, if_false]
    cases hg1 : GetUserIDFromSession db now c1 with
    | error e =>
      cases hg2 : GetUserIDFromSession db now c2 with
      | error e2 => rfl
      | ok uid2 =>
        rw [hg2] at h2
        simp only [authFailed] at h2
        simp [h2]
    | ok uid1 =>
      rw [hg1] at h1
      simp only [authFailed] at h1
      cases hg2 : GetUserIDFromSession db now c2 with
      | error e2 => simp [h1]
      | ok uid2 =>
        rw [hg2] at h2
        simp only [authFailed] at h2
        simp [h1, h2]

/-- An unauthenticated `GetLikedPosts` request is 401. -/
theorem GetLikedPosts_401 (db : DB) (now : Nat) (r : LikedReq)
    (h : authFailed (GetUserIDFromSession db now r.cookie) = true)
    (hm : r.method = "GET") :
    (GetLikedPosts db now r).1 = 401 := by
  unfold GetLikedPosts
  cases hg : GetUserIDFromSession db now r.cookie with
  | error e => simp [hm]
  | ok uid =>
    rw [hg] at h
    simp only [authFailed] at h
    simp [hm, h]

/-- A successful `ValidatePostContent` means both sanitizers succeed. -/
theorem validatePostContent_ok {title content : Str}
    (h : ValidatePostContent title content = .ok ()) :
    (∃ t, ValidateAndSanitizeString title 200 "title" = .ok t) ∧
    (∃ c, ValidateAndSanitizeString content 10000 "content" = .ok c) := by
  unfold ValidatePostContent at h
  cases ht : ValidateAndSanitizeString title 200 "title" with
  | error e => rw [ht] at h; simp at h
  | ok t =>
    rw [ht] at h
    cases hc : ValidateAndSanitizeString content 10000 "content" with
    | error e => rw [hc] at h; simp at h
    | ok c => exact ⟨⟨t, rfl⟩, ⟨c, rfl⟩⟩

/-- `CreatePost` does not depend on which failing credential it saw. -/
theorem CreatePost_cookie_eq (db : DB) (now : Nat) (r : CreateReq)
    (c1 c2 : Option String)
    (h1 : authFailed (GetUserIDFromSession db now c1) = true)
    (h2 : authFailed (GetUserIDFromSession db now c2) = true) :
    CreatePost db now { r with cookie := c1 } =
      CreatePost db now { r with cookie := c2 } := by
  unfold CreatePost
  by_cases hm : (r.method != "POST") = true
  · simp [hm]
  · simp only [hm, Bool.false_eq_true, if_false]
    by_cases hf : (!r.formOk) = true
    · simp [hf]
    · simp only [hf, Bool.false_eq_true, if_false]
      cases hv : ValidatePostContent r.title r.content with
      | error e => rfl
      | ok u =>
        cases ht : ValidateAndSanitizeString r.title 200 "title" with
        | error e => rfl
        | ok t =>
          cases hc : ValidateAndSanitizeString r.content 10000 "content" with
          | error e => rfl
          | ok c =>
            dsimp only
            rw [if_pos (requireAuth_failed h1),
              if_pos (requireAuth_failed h2)]

/-- An unauthenticated `CreatePost` whose form passes validation is
401. -/
theorem CreatePost_401 (db : DB) (now : Nat) (r : CreateReq)
    (h : authFailed (GetUserIDFromSession db now r.cookie) = true)
    (hm : r.method = "POST") (hf : r.formOk = true)
    (hv : ValidatePostContent r.title r.content = .ok ()) :
    (CreatePost db now r).1 = 401 := by
  obtain ⟨⟨t, ht⟩, ⟨c, hc⟩⟩ := validatePostContent_ok hv
  unfold CreatePost
  rw [hm, hf, hv, ht, hc]
  dsimp only
  rw [if_pos (requireAuth_failed h)]
  simp

/-! ## C9 -/

/-- An unknown session cookie fails the handlers' authentication test. -/
theorem authFailed_unknown (db : DB) (now : Nat) (sid : String)
    (h : ∀ s ∈ db.sessions, s.id ≠ sid) :
    authFailed (GetUserIDFromSession db now (some sid)) = true := by
  show authFailed (dbGetUserIDFromSession db now sid) = true
  rw [dbGetUserID_unknown db now sid h]
  rfl

/-- C9: looking up a session id with no matching row yields the empty
user id with no error (`.ok ""`, not a lookup failure); every
auth-requiring handler (CreatePost, UpdatePost, DeletePost,
GetLikedPosts) then answers 401 exactly as it does for an absent
cookie, so the two are indistinguishable at the interface. -/
theorem c9_unknown_session_unauthenticated :
    (∀ (db : DB) (now : Nat) (sid : String),
        (∀ s ∈ db.sessions, s.id ≠ sid) →
        dbGetUserIDFromSession db now sid = .ok "") ∧
    (∀ (db : DB) (now : Nat) (sid : String) (rc : CreateReq)
        (ru : UpdateReq) (rd : DeleteReq) (rl : LikedReq),
        (∀ s ∈ db.sessions, s.id ≠ sid) →
        (CreatePost db now { rc with cookie := some sid } =
            CreatePost db now { rc with cookie := none } ∧
          UpdatePost db now { ru with cookie := some sid } =
            UpdatePost db now { ru with cookie := none } ∧
          DeletePost db now { rd with cookie := some sid } =
            DeletePost db now { rd with cookie := none } ∧
          GetLikedPosts db now { rl with cookie := some sid } =
            GetLikedPosts db now { rl with cookie := none }) ∧
        (rl.method = "GET" →
          (GetLikedPosts db now { rl with cookie := some sid }).1 = 401) ∧
        (ru.method = "PUT" → ru.body ≠ none →
          (UpdatePost db now { ru with cookie := some sid }).1 = 401) ∧
        (rd.method = "DELETE" → rd.body ≠ none →
          (DeletePost db now { rd with cookie := some sid }).1 = 401) ∧
        (rc.method = "POST" → rc.formOk = true →
          ValidatePostContent rc.title rc.content = .ok () →
          (CreatePost db now { rc with cookie := some sid }).1 = 401)) := by
  constructor
  · exact fun db now sid h => dbGetUserID_unknown db now sid h
  · intro db now sid rc ru rd rl h
    have hu := authFailed_unknown db now sid h
    have hn := authFailed_noCookie db now
    refine ⟨⟨CreatePost_cookie_eq db now rc (some sid) none hu hn,
      UpdatePost_cookie_eq db now ru (some sid) none hu hn,
      DeletePost_cookie_eq db now rd (some sid) none hu hn,
      GetLikedPosts_cookie_eq db now rl (some sid) none hu hn⟩,
      ?_, ?_, ?_, ?_⟩
    · intro hm
      exact GetLikedPosts_401 db now { rl with cookie := some sid } hu hm
    · intro hm hb
      exact UpdatePost_401 db now { ru with cookie := some sid } hu hm hb
    · intro hm hb
      exact DeletePost_401 db now { rd with cookie := some sid } hu hm hb
    · intro hm hf hv
      exact CreatePost_401 db now { rc with cookie := some sid } hu hm hf hv

/-- Witness for C9 on `exDB` with the never-issued id `ghost`,
covering all four auth-requiring handlers. -/
theorem c9_unknown_session_unauthenticated_witness :
    dbGetUserIDFromSession exDB freshNow "ghost" = .ok "" ∧
    (CreatePost exDB freshNow
        ⟨"POST", some "ghost", true, "Hello".toList, "World".toList⟩ =
      CreatePost exDB freshNow
        ⟨"POST", none, true, "Hello".toList, "World".toList⟩ ∧
      UpdatePost exDB freshNow
        ⟨"PUT", some "ghost", some (1, "t".toList, "c".toList)⟩ =
        UpdatePost exDB freshNow
          ⟨"PUT", none, some (1, "t".toList, "c".toList)⟩ ∧
      DeletePost exDB freshNow ⟨"DELETE", some "ghost", some 1⟩ =
        DeletePost exDB freshNow ⟨"DELETE", none, some 1⟩ ∧
      GetLikedPosts exDB freshNow ⟨"GET", some "ghost", [], []⟩ =
        GetLikedPosts exDB freshNow ⟨"GET", none, [], []⟩) ∧
    (GetLikedPosts exDB freshNow ⟨"GET", some "ghost", [], []⟩).1 = 401 ∧
    (UpdatePost exDB freshNow
        ⟨"PUT", some "ghost", some (1, "t".toList, "c".toList)⟩).1 = 401 ∧
    (DeletePost exDB freshNow ⟨"DELETE", some "ghost", some 1⟩).1 = 401 ∧
    (CreatePost exDB freshNow
        ⟨"POST", some "ghost", true, "Hello".toList, "World".toList⟩).1 =
      401 := by
  have h := c9_unknown_session_unauthenticated.2 exDB freshNow "ghost"
    ⟨"POST", some "ghost", true, "Hello".toList, "World".toList⟩
    ⟨"PUT", some "ghost", some (1, "t".toList, "c".toList)⟩
    ⟨"DELETE", some "ghost", some 1⟩
    ⟨"GET", some "ghost", [], []⟩ (by decide)
  exact ⟨c9_unknown_session_unauthenticated.1 exDB freshNow "ghost"
      (by decide),
    h.1, h.2.1 rfl, h.2.2.1 rfl (by simp), h.2.2.2.1 rfl (by simp),
    h.2.2.2.2 rfl rfl (by rfl)⟩

/-! ## C3 -/

/-- An expired session cookie fails the handlers' authentication test. -/
theorem authFailed_expired {db : DB} {s : Session} (now : Nat)
    (hmem : s ∈ db.sessions) (hnodup : sessionIdsNodup db)
    (hexp : now - s.createdAt > sessionTTL) :
    authFailed (GetUserIDFromSession db now (some s.id)) = true := by
  show authFailed (dbGetUserIDFromSession db now s.id) = true
  rw [dbGetUserID_expired now hmem hnodup hexp]
  rfl

/-- C3 counterexample: with session `s1` (created at 0) seen at
`staleNow` — older than the 24h TTL — an `UpdatePost` request whose
JSON body is malformed is answered 400, not 401: the body is decoded
before the expired cookie is examined. -/
theorem c3_counterexample :
    (⟨"s1", "u1", 0⟩ : Session) ∈ exDB.sessions ∧
    staleNow - 0 > sessionTTL ∧
    UpdatePost exDB staleNow ⟨"PUT", some "s1", none⟩ = (400, exDB) := by
  decide

/-- C3 as amended: a request carrying a session cookie older than the
24h TTL is treated exactly as if the cookie were absent for every
auth-requiring handler; in particular it is rejected 401 whenever the
earlier method and body-processing stages pass (a malformed body is
rejected 400 before the cookie is examined). -/
theorem c3_expired_as_absent (db : DB) (now : Nat) (s : Session)
    (hmem : s ∈ db.sessions) (hnodup : sessionIdsNodup db)
    (hexp : now - s.createdAt > sessionTTL)
    (rc : CreateReq) (ru : UpdateReq) (rd : DeleteReq) (rl : LikedReq) :
    (CreatePost db now { rc with cookie := some s.id } =
        CreatePost db now { rc with cookie := none } ∧
      UpdatePost db now { ru with cookie := some s.id } =
        UpdatePost db now { ru with cookie := none } ∧
      DeletePost db now { rd with cookie := some s.id } =
        DeletePost db now { rd with cookie := none } ∧
      GetLikedPosts db now { rl with cookie := some s.id } =
        GetLikedPosts db now { rl with cookie := none }) ∧
    (rl.method = "GET" →
      (GetLikedPosts db now { rl with cookie := some s.id }).1 = 401) ∧
    (ru.method = "PUT" → ru.body ≠ none →
      (UpdatePost db now { ru with cookie := some s.id }).1 = 401) ∧
    (rd.method = "DELETE" → rd.body ≠ none →
      (DeletePost db now { rd with cookie := some s.id }).1 = 401) ∧
    (rc.method = "POST" → rc.formOk = true →
      ValidatePostContent rc.title rc.content = .ok () →
      (CreatePost db now { rc with cookie := some s.id }).1 = 401) := by
  have he := authFailed_expired now hmem hnodup hexp
  have hn := authFailed_noCookie db now
  refine ⟨⟨CreatePost_cookie_eq db now rc (some s.id) none he hn,
    UpdatePost_cookie_eq db now ru (some s.id) none he hn,
    DeletePost_cookie_eq db now rd (some s.id) none he hn,
    GetLikedPosts_cookie_eq db now rl (some s.id) none he hn⟩,
    ?_, ?_, ?_, ?_⟩
  · intro hm
    exact GetLikedPosts_401 db now { rl with cookie := some s.id } he hm
  · intro hm hb
    exact UpdatePost_401 db now { ru with cookie := some s.id } he hm hb
  · intro hm hb
    exact DeletePost_401 db now { rd with cookie := some s.id } he hm hb
  · intro hm hf hv
    exact CreatePost_401 db now { rc with cookie := some s.id } he hm hf hv

/-- Witness for C3: session `s1` of `exDB` seen at `staleNow`, with
well-formed requests against every auth-requiring handler. -/
theorem c3_expired_as_absent_witness :
    (CreatePost exDB staleNow
        ⟨"POST", some "s1", true, "Hello".toList, "World".toList⟩ =
      CreatePost exDB staleNow
        ⟨"POST", none, true, "Hello".toList, "World".toList⟩ ∧
      UpdatePost exDB staleNow
        ⟨"PUT", some "s1", some (1, "t".toList, "c".toList)⟩ =
        UpdatePost exDB staleNow
          ⟨"PUT", none, some (1, "t".toList, "c".toList)⟩ ∧
      DeletePost exDB staleNow ⟨"DELETE", some "s1", some 1⟩ =
        DeletePost exDB staleNow ⟨"DELETE", none, some 1⟩ ∧
      GetLikedPosts exDB staleNow ⟨"GET", some "s1", [], []⟩ =
        GetLikedPosts exDB staleNow ⟨"GET", none, [], []⟩) ∧
    (GetLikedPosts exDB staleNow ⟨"GET", some "s1", [], []⟩).1 = 401 ∧
    (UpdatePost exDB staleNow
        ⟨"PUT", some "s1", some (1, "t".toList, "c".toList)⟩).1 = 401 ∧
    (DeletePost exDB staleNow ⟨"DELETE", some "s1", some 1⟩).1 = 401 ∧
    (CreatePost exDB staleNow
        ⟨"POST", some "s1", true, "Hello".toList, "World".toList⟩).1 =
      401 := by
  have h := c3_expired_as_absent exDB staleNow ⟨"s1", "u1", 0⟩ (by decide)
    (by unfold sessionIdsNodup; decide) (by decide)
    ⟨"POST", some "s1", true, "Hello".toList, "World".toList⟩
    ⟨"PUT", some "s1", some (1, "t".toList, "c".toList)⟩
    ⟨"DELETE", some "s1", some 1⟩
    ⟨"GET", some "s1", [], []⟩
  exact ⟨h.1, h.2.1 rfl, h.2.2.1 rfl (by simp), h.2.2.2.1 rfl (by simp),
    h.2.2.2.2 rfl rfl (by rfl)⟩

/-! ## C8 -/

/-- C8 counterexample: an unauthenticated `CreatePost` (no cookie at
all) whose title fails validation is answered 400, not 401 — the form
is parsed and validated before authentication is checked. -/
theorem c8_counterexample :
    CreatePost exDB freshNow ⟨"POST", none, true, [], "World".toList⟩ =
      (400, exDB) := by decide

/-- C8 as amended: for every mutating endpoint the body is parsed and
validated before authentication; an unauthenticated request whose body
passes those stages is rejected 401, while one whose body fails them is
rejected 400 without the credential ever being consulted. -/
theorem c8_validation_before_auth (db : DB) (now : Nat) (c : Option String)
    (hbad : authFailed (GetUserIDFromSession db now c) = true) :
    (∀ r : CreateReq, r.cookie = c → r.method = "POST" → r.formOk = true →
      (ValidatePostContent r.title r.content = .ok () →
        (CreatePost db now r).1 = 401) ∧
      (∀ e, ValidatePostContent r.title r.content = .error e →
        (CreatePost db now r).1 = 400)) ∧
    (∀ r : UpdateReq, r.cookie = c → r.method = "PUT" →
      (r.body ≠ none → (UpdatePost db now r).1 = 401) ∧
      (r.body = none → (UpdatePost db now r).1 = 400)) ∧
    (∀ r : DeleteReq, r.cookie = c → r.method = "DELETE" →
      (r.body ≠ none → (DeletePost db now r).1 = 401) ∧
      (r.body = none → (DeletePost db now r).1 = 400)) := by
  refine ⟨?_, ?_, ?_⟩
  · intro r hc hm hf
    constructor
    · intro hv
      exact CreatePost_401 db now r (hc ▸ hbad) hm hf hv
    · intro e hv
      unfold CreatePost
      rw [hm, hf, hv]
      simp
  · intro r hc hm
    constructor
    · intro hb
      exact UpdatePost_401 db now r (hc ▸ hbad) hm hb
    · intro hb
      unfold UpdatePost
      rw [hm, hb]
      simp
  · intro r hc hm
    constructor
    · intro hb
      exact DeletePost_401 db now r (hc ▸ hbad) hm hb
    · intro hb
      unfold DeletePost
      rw [hm, hb]
      simp

/-- Witness for C8 with no cookie: a valid body gets 401, an invalid
body gets 400, on each mutating handler. -/
theorem c8_validation_before_auth_witness :
    ((CreatePost exDB freshNow
        ⟨"POST", none, true, "Hello".toList, "World".toList⟩).1 = 401 ∧
      (CreatePost exDB freshNow
        ⟨"POST", none, true, [], "World".toList⟩).1 = 400) ∧
    ((UpdatePost exDB freshNow
        ⟨"PUT", none, some (1, "t".toList, "c".toList)⟩).1 = 401 ∧
      (UpdatePost exDB freshNow ⟨"PUT", none, none⟩).1 = 400) ∧
    ((DeletePost exDB freshNow ⟨"DELETE", none, some 1⟩).1 = 401 ∧
      (DeletePost exDB freshNow ⟨"DELETE", none, none⟩).1 = 400) := by
  have h := c8_validation_before_auth exDB freshNow none
    (authFailed_noCookie exDB freshNow)
  refine ⟨⟨(h.1 ⟨"POST", none, true, "Hello".toList, "World".toList⟩
      rfl rfl rfl).1 (by rfl),
    (h.1 ⟨"POST", none, true, [], "World".toList⟩ rfl rfl rfl).2
      "title cannot be empty" (by rfl)⟩,
    ⟨(h.2.1 ⟨"PUT", none, some (1, "t".toList, "c".toList)⟩ rfl rfl).1
      (by simp),
    (h.2.1 ⟨"PUT", none, none⟩ rfl rfl).2 rfl⟩,
    ⟨(h.2.2 ⟨"DELETE", none, some 1⟩ rfl rfl).1 (by simp),
    (h.2.2 ⟨"DELETE", none, none⟩ rfl rfl).2 rfl⟩⟩

/-! ## Deletion cascade lemmas -/

/-- After `dbDeletePost`, the post is no longer retrievable. -/
theorem dbGetPost_dbDeletePost (db : DB) (pid : Nat) :
    dbGetPost (dbDeletePost db pid) pid = none := by
  unfold dbGetPost dbDeletePost
  dsimp only
  rw [List.find?_eq_none.mpr]
  intro x hx
  have hcond := (List.mem_filter.mp hx).2
  simp at hcond ⊢
  exact hcond

/-- After `dbDeletePost`, no comment of the post remains. -/
theorem dbDeletePost_no_comments (db : DB) (pid : Nat) :
    ∀ c ∈ (dbDeletePost db pid).comments, c.postId ≠ pid := by
  intro c hc
  have hcond := (List.mem_filter.mp hc).2
  simpa using hcond

/-- After `dbDeletePost`, no reaction on the post remains. -/
theorem dbDeletePost_no_post_reactions (db : DB) (pid : Nat) :
    ∀ rr ∈ (dbDeletePost db pid).likes, rr.target ≠ Target.post pid := by
  intro rr hrr heq
  have hcond := (List.mem_filter.mp hrr).2
  rw [heq] at hcond
  simp at hcond

/-- After `dbDeletePost`, no reaction on any of the post's comments
remains. -/
theorem dbDeletePost_no_comment_reactions (db : DB) (pid : Nat) :
    ∀ rr ∈ (dbDeletePost db pid).likes, ∀ cid,
      rr.target = Target.comment cid → cid ∉ commentIdsOfPost db pid := by
  intro rr hrr cid heq hcid
  have hcond := (List.mem_filter.mp hrr).2
  rw [heq] at hcond
  simp at hcond
  exact hcond hcid

/-- A fresh session of a user with a non-empty id authenticates. -/
theorem authFresh {db : DB} {s : Session} (now : Nat)
    (hmem : s ∈ db.sessions) (hnodup : sessionIdsNodup db)
    (hfresh : now - s.createdAt ≤ sessionTTL) :
    GetUserIDFromSession db now (some s.id) = .ok s.userId :=
  dbGetUserID_fresh now hmem hnodup hfresh

/-! ## C4 -/

/-- C4: an authenticated update or delete on a post owned by someone
else is answered 403 with the database unchanged (post, comments and
reactions intact); the owner's own delete succeeds, and afterwards the
post, its comments, and the reactions on the post and on its comments
are no longer retrievable. -/
theorem c4_owner_authorization (db : DB) (now : Nat) (s : Session)
    (p : Post) (hmem : s ∈ db.sessions) (hnodup : sessionIdsNodup db)
    (hfresh : now - s.createdAt ≤ sessionTTL) (hu : s.userId ≠ "")
    (pid : Nat) (hp : dbGetPost db pid = some p) (title content : Str) :
    (p.userId ≠ s.userId →
      UpdatePost db now ⟨"PUT", some s.id, some (pid, title, content)⟩ =
        (403, db) ∧
      DeletePost db now ⟨"DELETE", some s.id, some pid⟩ = (403, db)) ∧
    (p.userId = s.userId →
      DeletePost db now ⟨"DELETE", some s.id, some pid⟩ =
        (200, dbDeletePost db pid) ∧
      dbGetPost (dbDeletePost db pid) pid = none ∧
      (∀ c ∈ (dbDeletePost db pid).comments, c.postId ≠ pid) ∧
      (∀ rr ∈ (dbDeletePost db pid).likes,
        rr.target ≠ Target.post pid ∧
        ∀ cid, rr.target = Target.comment cid →
          cid ∉ commentIdsOfPost db pid)) := by
  have hg := authFresh now hmem hnodup hfresh
  constructor
  · intro hne
    constructor
    · unfold UpdatePost
      simp [hg, authFailed, hu, hp, hne]
    · unfold DeletePost
      simp [hg, authFailed, hu, hp, hne]
  · intro howner
    refine ⟨?_, dbGetPost_dbDeletePost db pid,
      dbDeletePost_no_comments db pid,
      fun rr hrr => ⟨dbDeletePost_no_post_reactions db pid rr hrr,
        dbDeletePost_no_comment_reactions db pid rr hrr⟩⟩
    unfold DeletePost
    simp [hg, authFailed, hu, hp, howner]

/-- Witness for C4 on `exDB`: `u2` (session `s2`) is denied 403 on post
1 owned by `u1`, and `u1` (session `s1`) deletes it with the cascades
observed. -/
theorem c4_owner_authorization_witness :
    (UpdatePost exDB freshNow
        ⟨"PUT", some "s2", some (1, "t".toList, "c".toList)⟩ =
      (403, exDB) ∧
      DeletePost exDB freshNow ⟨"DELETE", some "s2", some 1⟩ =
        (403, exDB)) ∧
    (DeletePost exDB freshNow ⟨"DELETE", some "s1", some 1⟩ =
        (200, dbDeletePost exDB 1) ∧
      dbGetPost (dbDeletePost exDB 1) 1 = none ∧
      (∀ c ∈ (dbDeletePost exDB 1).comments, c.postId ≠ 1) ∧
      (∀ rr ∈ (dbDeletePost exDB 1).likes,
        rr.target ≠ Target.post 1 ∧
        ∀ cid, rr.target = Target.comment cid →
          cid ∉ commentIdsOfPost exDB 1)) :=
  ⟨(c4_owner_authorization exDB freshNow ⟨"s2", "u2", 0⟩
      ⟨1, "u1", "T".toList, "C".toList, 10⟩ (by decide)
      (by unfold sessionIdsNodup; decide) (by decide) (by decide) 1
      (by decide) "t".toList "c".toList).1 (by decide),
   (c4_owner_authorization exDB freshNow ⟨"s1", "u1", 0⟩
      ⟨1, "u1", "T".toList, "C".toList, 10⟩ (by decide)
      (by unfold sessionIdsNodup; decide) (by decide) (by decide) 1
      (by decide) "t".toList "c".toList).2 rfl⟩

/-! ## C7 -/

/-- C7 counterexample: an authenticated update of the nonexistent post
7 (and likewise its delete) is answered 500, not 404 — the handler maps
the failed post fetch to "Failed to read post data" with status 500. -/
theorem c7_counterexample :
    dbGetPost exDB 7 = none ∧
    UpdatePost exDB freshNow
      ⟨"PUT", some "s1", some (7, "t".toList, "c".toList)⟩ =
      (500, exDB) ∧
    DeletePost exDB freshNow ⟨"DELETE", some "s1", some 7⟩ =
      (500, exDB) := by decide

/-- C7 as amended: for every authenticated update or delete request
referencing a post that does not exist, the server responds 500
Internal Server Error (the storage-layer miss is not translated to
404). -/
theorem c7_missing_post_500 (db : DB) (now : Nat) (s : Session)
    (hmem : s ∈ db.sessions) (hnodup : sessionIdsNodup db)
    (hfresh : now - s.createdAt ≤ sessionTTL) (hu : s.userId ≠ "")
    (pid : Nat) (hp : dbGetPost db pid = none) (title content : Str) :
    UpdatePost db now ⟨"PUT", some s.id, some (pid, title, content)⟩ =
      (500, db) ∧
    DeletePost db now ⟨"DELETE", some s.id, some pid⟩ = (500, db) := by
  have hg := authFresh now hmem hnodup hfresh
  constructor
  · unfold UpdatePost
    simp [hg, authFailed, hu, hp]
  · unfold DeletePost
    simp [hg, authFailed, hu, hp]

/-- Witness for C7: `u1` updating and deleting the nonexistent post 7
of `exDB`. -/
theorem c7_missing_post_500_witness :
    UpdatePost exDB freshNow
      ⟨"PUT", some "s1", some (7, "t".toList, "c".toList)⟩ =
      (500, exDB) ∧
    DeletePost exDB freshNow ⟨"DELETE", some "s1", some 7⟩ =
      (500, exDB) :=
  c7_missing_post_500 exDB freshNow ⟨"s1", "u1", 0⟩ (by decide)
    (by unfold sessionIdsNodup; decide) (by decide) (by decide) 7
    (by decide) "t".toList "c".toList
